import Mathlib

/-!
Shallow embedding of the quahl IPC core (src/quahl/ipc/jsonrpc.py and
src/quahl/ipc/__init__.py).

Python/JSON values are modelled by `PyVal`; machine-level details of UTF-8
decoding and JSON parsing are abstracted into the `ParseOutcome` fed to
`process_request` (the source delegates both to the standard library).
Python exceptions are modelled by `PyExc` and exception flow by
`Except PyExc`.  Registered methods are modelled as functions from
positional and keyword arguments to `Except PyExc PyVal`, so that a call
may raise.  The concrete wording of exception messages produced by the
CPython runtime is abbreviated; no theorem below depends on those strings
beyond their being fixed.
-/

set_option maxHeartbeats 1000000

/-- A Python value as it occurs in this program: the JSON universe plus
`pyobject`, an arbitrary non-JSON-serializable Python object (such as a
set) that a registered method may return.  JSON numbers are modelled as
integers; no claim involves fractional values. -/
inductive PyVal where
  | null
  | bool (b : Bool)
  | num (n : Int)
  | str (s : String)
  | arr (xs : List PyVal)
  | obj (kvs : List (String × PyVal))
  | pyobject (tag : Nat)

/-- A Python exception, as distinguished by the `except` clauses in
`_process_single` and `process_request`. -/
inductive PyExc where
  | typeError (msg : String)
  | valueError (msg : String)
  | keyError (msg : String)
  | otherError (msg : String)

/-- `str(e)` as used in the f-strings building error messages. -/
def excMsg : PyExc → String
  | .typeError m => m
  | .valueError m => m
  | .keyError m => m
  | .otherError m => m

/-- Python truthiness (`if not params:`, `if request:`, `if obj`). -/
def pyTruthy : PyVal → Bool
  | .null => false
  | .bool b => b
  | .num n => n != 0
  | .str s => s != ""
  | .arr xs => !xs.isEmpty
  | .obj kvs => !kvs.isEmpty
  | .pyobject _ => true

mutual

/-- Whether `json.dumps` succeeds on a value (it raises `TypeError` on a
non-JSON object). -/
def serializable : PyVal → Bool
  | .pyobject _ => false
  | .arr xs => serializableList xs
  | .obj kvs => serializableObj kvs
  | _ => true

def serializableList : List PyVal → Bool
  | [] => true
  | x :: xs => serializable x && serializableList xs

def serializableObj : List (String × PyVal) → Bool
  | [] => true
  | kv :: kvs => serializable kv.2 && serializableObj kvs

end

/-- First-match association-list lookup, modelling Python dict indexing
(dicts produced by `json.loads` have unique keys). -/
def alistGet {α : Type} : List (String × α) → String → Option α
  | [], _ => none
  | (k2, v) :: rest, k => if k2 = k then some v else alistGet rest k

/-- `del d[k]`: drop the (unique) entry stored under `k`. -/
def delKey {α : Type} : List (String × α) → String → List (String × α)
  | [], _ => []
  | (k2, v) :: rest, k => if k2 = k then rest else (k2, v) :: delKey rest k

/-- Substring test on character lists, for the Python `in` operator on
strings (`"id" not in request` when `request` is a `str`). -/
def subListOf (needle : List Char) : List Char → Bool
  | [] => needle.isEmpty
  | c :: rest => needle.isPrefixOf (c :: rest) || subListOf needle rest

/-- `needle in hay` for Python strings. -/
def strContainsSub (needle hay : String) : Bool :=
  subListOf needle.data hay.data

/-- Equality of a Python value with a string literal, as used by list
membership `"id" in [...]` (cross-type equality with a string is false). -/
def pyStrElemEq (needle : String) : PyVal → Bool
  | .str s => s = needle
  | _ => false

/-- The Python `in` operator, `needle in v`, for a string needle:
key membership for dicts, substring for strings, element membership for
lists, and `TypeError` for non-container values. -/
def pyIn (needle : String) : PyVal → Except PyExc Bool
  | .obj kvs => .ok (alistGet kvs needle).isSome
  | .str s => .ok (strContainsSub needle s)
  | .arr xs => .ok (xs.any (pyStrElemEq needle))
  | .null => .error (.typeError "argument of type NoneType is not iterable")
  | .bool _ => .error (.typeError "argument of type bool is not iterable")
  | .num _ => .error (.typeError "argument of type int is not iterable")
  | .pyobject _ => .error (.typeError "argument of type object is not iterable")

/-- `v[key]` for a string key: dict lookup, `TypeError` for strings and
lists (string indices must be integers) and for non-subscriptable values. -/
def pySubscript (v : PyVal) (key : String) : Except PyExc PyVal :=
  match v with
  | .obj kvs =>
    match alistGet kvs key with
    | some x => .ok x
    | none => .error (.keyError key)
  | .str _ => .error (.typeError "string indices must be integers")
  | .arr _ => .error (.typeError "list indices must be integers")
  | _ => .error (.typeError "object is not subscriptable")

/-- `set(v)` as used in `set(request).issubset(...)`: the key set of a
dict, the character set of a string.  This line of the source is reached
only after `request["jsonrpc"]` succeeded, hence only for dicts; the
remaining cases raise like the iteration of a non-iterable or hashing of
an unhashable element would. -/
def pyKeys : PyVal → Except PyExc (List String)
  | .obj kvs => .ok ((kvs.map Prod.fst).dedup)
  | .str s => .ok ((s.data.map (fun c => String.mk [c])).dedup)
  | _ => .error (.typeError "argument is not iterable")

/-- `mv in self._methods` where the dict is keyed by strings: lists and
dicts are unhashable and raise; other non-string hashables are simply
absent. -/
def pyHashContains (mv : PyVal) (methods : List (String × α)) : Except PyExc Bool :=
  match mv with
  | .str s => .ok (alistGet methods s).isSome
  | .arr _ => .error (.typeError "unhashable type: list")
  | .obj _ => .error (.typeError "unhashable type: dict")
  | _ => .ok false

/-- A registered Python callable: its `__name__` and its behaviour on a
positional argument list and keyword argument mapping. -/
structure PyCallable where
  name : String
  call : List PyVal → List (String × PyVal) → Except PyExc PyVal

/-- `self._methods[method](...)`: index the registry with the (string)
method name and invoke. -/
def callRegistered (methods : List (String × PyCallable)) (mv : PyVal)
    (pos : List PyVal) (kw : List (String × PyVal)) : Except PyExc PyVal :=
  match mv with
  | .str s =>
    match alistGet methods s with
    | some c => c.call pos kw
    | none => .error (.keyError s)
  | _ => .error (.typeError "unhashable or non-string method name")

namespace JSONRPCError

def ParseError : Int := -32700
def InvalidRequest : Int := -32600
def MethodNotFound : Int := -32601
def InvalidParams : Int := -32602
def InternalError : Int := -32603

end JSONRPCError

/-- A serialized JSON-RPC response, kept structured: either the dict built
by `prepare_response` or the dict built by `prepare_error`. -/
inductive Resp where
  | result (r : PyVal) (id : PyVal)
  | error (code : Int) (message : String) (id : PyVal)

/-- `prepare_error`: dumps the error object; `json.dumps` raises a
`TypeError` when the echoed `id` is not JSON-serializable (the code and
message parts always are). -/
def prepare_error (code : Int) (message : String) (id : PyVal) : Except PyExc Resp :=
  if serializable id then .ok (.error code message id)
  else .error (.typeError "Object is not JSON serializable")

/-- `prepare_response`: dumps the result object; raises `TypeError` when
the result (or the echoed id) is not JSON-serializable. -/
def prepare_response (result : PyVal) (id : PyVal) : Except PyExc Resp :=
  if serializable result && serializable id then .ok (.result result id)
  else .error (.typeError "Object is not JSON serializable")

/-- `return prepare_error(...)` inside `_process_single`: the response
becomes the return value, and a serialization failure propagates as an
exception. -/
def returnError (code : Int) (message : String) (id : PyVal) : Except PyExc (Option Resp) :=
  match prepare_error code message id with
  | .ok r => .ok (some r)
  | .error e => .error e

def REQUEST_FIELDS : List String := ["jsonrpc", "method", "params", "id"]

/-- The tail of the `try` block of `_process_single`: a finished method
call either returns nothing (notification) or serializes a response. -/
def afterCall (out : Except PyExc PyVal) (isNotification : Bool) (id : PyVal) :
    Except PyExc (Option Resp) :=
  match out with
  | .error e => .error e
  | .ok result =>
    if isNotification then .ok none
    else
      match prepare_response result id with
      | .ok r => .ok (some r)
      | .error e => .error e

/-- The `except` clauses of `_process_single` (lines 191-201):
`TypeError`/`ValueError` become InvalidParams, everything else
InternalError, both built without an id argument. -/
def exceptClause (attempt : Except PyExc (Option Resp)) : Except PyExc (Option Resp) :=
  match attempt with
  | .ok v => .ok v
  | .error (.typeError m) =>
    returnError JSONRPCError.InvalidParams ("Invalid params: " ++ m) PyVal.null
  | .error (.valueError m) =>
    returnError JSONRPCError.InvalidParams ("Invalid params: " ++ m) PyVal.null
  | .error e =>
    returnError JSONRPCError.InternalError ("Internal error: " ++ excMsg e) PyVal.null

/-- `JSONRPCProvider._process_single`, step for step.  The leading
underscore of the source name is dropped. -/
def process_single (methods : List (String × PyCallable)) (request : PyVal) :
    Except PyExc (Option Resp) :=
  match pyIn "id" request with
  | .error e => .error e
  | .ok hasId =>
  match (if hasId then pySubscript request "id" else .ok PyVal.null) with
  | .error e => .error e
  | .ok id =>
  let isNotification := !hasId
  match pyIn "jsonrpc" request with
  | .error e => .error e
  | .ok hasJsonrpc =>
  if !hasJsonrpc then
    returnError JSONRPCError.InvalidRequest "Invalid request: jsonrpc key missing" id
  else
  match pySubscript request "jsonrpc" with
  | .error e => .error e
  | .ok jv =>
  match jv with
  | .str s =>
    if s == "2.0" then
    (match pyIn "method" request with
     | .error e => .error e
     | .ok hasMethod =>
     if !hasMethod then
       returnError JSONRPCError.InvalidRequest "Invalid request: method key missing" id
     else
     match pyKeys request with
     | .error e => .error e
     | .ok keys =>
     if !(keys.all (fun k => REQUEST_FIELDS.contains k)) then
       -- `unknown_fields` is a set; `unknown_fields[0]` in the 1-element
       -- branch subscripts a set, which raises a TypeError in Python.
       let unknown := keys.filter (fun k => !(REQUEST_FIELDS.contains k))
       if unknown.length > 1 then
         returnError JSONRPCError.InvalidRequest
           ("Invalid request: unknown keys " ++ String.intercalate ", " unknown) PyVal.null
       else .error (.typeError "set object is not subscriptable")
     else
     match pySubscript request "method" with
     | .error e => .error e
     | .ok mv =>
     match pyHashContains mv methods with
     | .error e => .error e
     | .ok found =>
     if !found then
       returnError JSONRPCError.MethodNotFound
         ("Method not found: no method named " ++
           (match mv with | .str s => s | _ => "?")) id
     else
     match pyIn "params" request with
     | .error e => .error e
     | .ok hasParams =>
     match (if hasParams then pySubscript request "params" else .ok PyVal.null) with
     | .error e => .error e
     | .ok params =>
     -- the try block of lines 175-190 wrapped in the except clauses
     exceptClause
       (if !(pyTruthy params) then
         afterCall (callRegistered methods mv [] []) isNotification id
       else
         match params with
         | .arr xs => afterCall (callRegistered methods mv xs []) isNotification id
         | .obj ps => afterCall (callRegistered methods mv [] ps) isNotification id
         | _ =>
           returnError JSONRPCError.InvalidRequest
             "Invalid request: params must be absent, array or object" PyVal.null))
    else
      returnError JSONRPCError.InvalidRequest "Invalid request: jsonrpc must be exactly 2.0" id
  | _ =>
    returnError JSONRPCError.InvalidRequest "Invalid request: jsonrpc must be exactly 2.0" id

/-- The wire output of `process_request`: either a single serialized
response or the `prepare_batch` join of several (possibly zero, giving the
serialization of an empty array). -/
inductive Output where
  | single (r : Resp)
  | batch (rs : List Resp)

/-- `JSONRPCProvider._process_batch`: process every truthy element; a
raised exception escapes the list comprehension.  `if len(results)` counts
`None` entries too; `prepare_batch` then keeps only the truthy (non-`None`)
serialized responses. -/
def process_batch (methods : List (String × PyCallable)) (requests : List PyVal) :
    Except PyExc (Option Output) :=
  match (requests.filter pyTruthy).mapM (process_single methods) with
  | .error e => .error e
  | .ok results =>
    if results.length ≠ 0 then .ok (some (.batch (results.filterMap id)))
    else .ok none

/-- The outcome of the decode/parse stages of `process_request` (delegated
to `str(...)` and `json.loads` in the source). -/
inductive ParseOutcome where
  | decodeError (msg : String)
  | jsonError (msg : String)
  | value (v : PyVal)

/-- `JSONRPCProvider.process_request`.  The error responses built here use
a `null` id, on which `prepare_error` never raises. -/
def process_request (methods : List (String × PyCallable)) (input : ParseOutcome) :
    Option Output :=
  match input with
  | .decodeError e =>
    some (.single (.error JSONRPCError.ParseError ("Parse error: " ++ e) PyVal.null))
  | .jsonError e =>
    some (.single (.error JSONRPCError.ParseError ("Parse error: " ++ e) PyVal.null))
  | .value v =>
    match (match v with
           | .arr xs => process_batch methods xs
           | _ =>
             match process_single methods v with
             | .ok r => .ok (r.map Output.single)
             | .error e => .error e) with
    | .ok out => out
    | .error e =>
      some (.single (.error JSONRPCError.InternalError
        ("Internal error: " ++ excMsg e) PyVal.null))

/-- The argument passed to `add_method` or `remove_method`: a callable or
some other (non-invokable) object. -/
inductive RegArg where
  | callable (c : PyCallable)
  | notCallable (tag : Nat)

/-- `JSONRPCProvider.add_method`.  The result pair is the updated registry
together with the Python return value: `some false` for the explicit
`return False` branches and `none` for falling off the end of the function
(Python returns `None`). -/
def add_method (methods : List (String × PyCallable)) (method : RegArg)
    (aliasArg : Option String) : List (String × PyCallable) × Option Bool :=
  match method with
  | .notCallable _ => (methods, some false)
  | .callable c =>
    -- `if not alias:` is a truthiness test: both None and "" fall back
    -- to method.__name__.
    let alias2 := match aliasArg with
      | none => c.name
      | some a => if a = "" then c.name else a
    if (alistGet methods alias2).isSome then (methods, some false)
    else (methods ++ [(alias2, c)], none)

/-- The argument of `remove_method`: a string alias or a (possibly
non-callable) object. -/
inductive MethodRef where
  | byStr (s : String)
  | byObj (o : RegArg)

/-- `JSONRPCProvider.remove_method`: a non-string argument is replaced by
its `__name__` (after a callable check), then removal is by name. -/
def remove_method (methods : List (String × PyCallable)) (ref : MethodRef) :
    List (String × PyCallable) × Bool :=
  match ref with
  | .byObj (.notCallable _) => (methods, false)
  | .byObj (.callable c) =>
    if (alistGet methods c.name).isSome then (delKey methods c.name, true)
    else (methods, false)
  | .byStr s =>
    if (alistGet methods s).isSome then (delKey methods s, true)
    else (methods, false)

/-!
Model of `ConnectionHandler` (src/quahl/ipc/__init__.py).

The class declares `buffer: QByteArray = QByteArray()` at class level, so
the initializer of the default value runs once and the resulting object is
stored on the class.  `__init__` assigns only `_interface` and `_socket`
on the instance and never rebinds `self.buffer`; `append` and `clear` are
in-place mutations of whatever object the attribute lookup finds.  The
state below models Python attribute resolution exactly: an instance
attribute, when present, shadows the class attribute, and otherwise the
lookup falls through to the class object.  Handlers are identified by
natural numbers; bytes by naturals.
-/

/-- The attribute state relevant to `ConnectionHandler.buffer`: the single
class-level byte array, plus any per-instance `buffer` attribute (the
source never creates one, so `instBuffer` stays `none` everywhere). -/
structure HandlerState where
  classBuffer : List Nat
  instBuffer : Nat → Option (List Nat)

/-- The state after the class body has run and any number of handlers have
been constructed: `__init__` never assigns `self.buffer`. -/
def initialHandlerState : HandlerState :=
  { classBuffer := [], instBuffer := fun _ => none }

/-- Reading `self.buffer` on handler `h`: instance attribute if present,
else the class attribute. -/
def ConnectionHandler.buffer (s : HandlerState) (h : Nat) : List Nat :=
  (s.instBuffer h).getD s.classBuffer

/-- `self.buffer.append(b)` on handler `h`: in-place mutation of the
object found by attribute lookup. -/
def appendByteVia (s : HandlerState) (h : Nat) (b : Nat) : HandlerState :=
  match s.instBuffer h with
  | some buf =>
    { s with instBuffer := fun h2 => if h2 = h then some (buf ++ [b]) else s.instBuffer h2 }
  | none => { s with classBuffer := s.classBuffer ++ [b] }

/-- `self.buffer.clear()` on handler `h`. -/
def clearBufferVia (s : HandlerState) (h : Nat) : HandlerState :=
  match s.instBuffer h with
  | some _ =>
    { s with instBuffer := fun h2 => if h2 = h then some [] else s.instBuffer h2 }
  | none => { s with classBuffer := [] }

/-- The frame delimiter checked by `buffer.endsWith(b"\r\n\r\n")`. -/
def frameDelimiter : List Nat := [13, 10, 13, 10]

/-- One iteration of the read loop in `_handle_new_data` on handler `h`:
append the byte, and if the buffer now ends with the delimiter run
`_execute_buffer` (read out the data, clear the buffer, hand the frame to
the request processor).  The extracted frame, if any, is returned. -/
def handleByte (s : HandlerState) (h : Nat) (b : Nat) : HandlerState × Option (List Nat) :=
  let s1 := appendByteVia s h b
  let buf := ConnectionHandler.buffer s1 h
  if frameDelimiter.isSuffixOf buf then (clearBufferVia s1 h, some buf)
  else (s1, none)

/-- The whole read loop of `_handle_new_data` on a chunk of bytes,
collecting the extracted frames. -/
def handleData (s : HandlerState) (h : Nat) (bs : List Nat) :
    HandlerState × List (List Nat) :=
  bs.foldl
    (fun acc b =>
      let step := handleByte acc.1 h b
      (step.1, acc.2 ++ (step.2.map (fun f => [f])).getD []))
    (s, [])

/-!
Spec-side definitions: independent characterizations, written from the
wording of the specification (amended where a counterexample forces it),
to be compared with the embedded source functions above.
-/

/-- Which call the dispatcher makes for a given `params` value, following
the (amended) dispatch rule: a falsy `params` gives a zero-argument call,
a (non-empty) array a positional call, a (non-empty) object a keyword
call; `none` marks the rejected shapes. -/
def chosenCall (c : PyCallable) (params : PyVal) : Option (Except PyExc PyVal) :=
  if pyTruthy params = false then some (c.call [] [])
  else
    match params with
    | .arr xs => some (c.call xs [])
    | .obj ps => some (c.call [] ps)
    | _ => none

/-- The key-set check of spec item 4.2a(e): every key of the request lies
in `{jsonrpc, method, params, id}`. -/
def keysAllowed (kvs : List (String × PyVal)) : Bool :=
  ((kvs.map Prod.fst).dedup).all (fun k => REQUEST_FIELDS.contains k)

/-- Spec-side characterization of a request object whose dispatch
succeeds: all validation steps of 4.2a pass, the method is registered,
the params shape is accepted, and the chosen call returns normally. -/
def dispatchSucceeds (methods : List (String × PyCallable))
    (kvs : List (String × PyVal)) : Bool :=
  match alistGet kvs "jsonrpc" with
  | some (PyVal.str v) =>
    (v == "2.0") &&
    (match alistGet kvs "method" with
     | some (PyVal.str n) =>
       keysAllowed kvs &&
       (match alistGet methods n with
        | some c =>
          (match chosenCall c ((alistGet kvs "params").getD PyVal.null) with
           | some (Except.ok _) => true
           | _ => false)
        | none => false)
     | _ => false)
  | _ => false

/-- Spec-side description of the outcome of a chosen call (spec items
4.2a(h)-(j)): a successful notification is silent, a successful call
serializes the result, a raised `TypeError`/`ValueError` (including a
result that does not serialize) becomes InvalidParams, and anything else
becomes InternalError, each error carrying a null id. -/
def finishCall (out : Except PyExc PyVal) (isNotification : Bool) (id : PyVal) :
    Option Resp :=
  match out with
  | .ok v =>
    if isNotification then none
    else if serializable v && serializable id then some (.result v id)
    else some (.error JSONRPCError.InvalidParams
      "Invalid params: Object is not JSON serializable" PyVal.null)
  | .error (.typeError m) =>
    some (.error JSONRPCError.InvalidParams ("Invalid params: " ++ m) PyVal.null)
  | .error (.valueError m) =>
    some (.error JSONRPCError.InvalidParams ("Invalid params: " ++ m) PyVal.null)
  | .error e =>
    some (.error JSONRPCError.InternalError ("Internal error: " ++ excMsg e) PyVal.null)

/-- Spec-side description of dispatch on an already-validated request
(spec item 4.2a(g), with the params rule amended to Python truthiness):
a falsy `params` gives a zero-argument call, a non-empty array a
positional call, a non-empty object a keyword call, and every other
(truthy) shape an InvalidRequest error. -/
def dispatchRule (c : PyCallable) (params : PyVal) (isNotification : Bool)
    (id : PyVal) : Option Resp :=
  if !(pyTruthy params) then finishCall (c.call [] []) isNotification id
  else
    match params with
    | .arr xs => finishCall (c.call xs []) isNotification id
    | .obj ps => finishCall (c.call [] ps) isNotification id
    | _ => some (.error JSONRPCError.InvalidRequest
        "Invalid request: params must be absent, array or object" PyVal.null)

/-- The numeric code carried by a response, `none` for a success result. -/
def Resp.code : Resp → Option Int
  | .error c _ _ => some c
  | .result _ _ => none

/-- The echoed id of a response. -/
def Resp.respId : Resp → PyVal
  | .error _ _ i => i
  | .result _ i => i

/-!
Concrete fixtures used by the closed theorems below.
-/

/-- A method that accepts only a zero-argument call and raises a
`TypeError` on any positional argument (Python arity error). -/
def zeroArity : PyCallable :=
  ⟨"f", fun pos _ =>
    if pos.isEmpty then .ok (.str "ok")
    else .error (.typeError "takes 0 positional arguments")⟩

/-- A method returning a non-JSON-serializable object. -/
def returnsSet : PyCallable := ⟨"g", fun _ _ => .ok (.pyobject 0)⟩

/-- A callable whose `__name__` is `return_`, as registered under the
alias `return` by `RPCInterface.__init__`. -/
def returnUnderscore : PyCallable := ⟨"return_", fun pos _ => .ok (pos.headD .null)⟩

/-- A trivial registered method. -/
def trivialMethod : PyCallable := ⟨"h", fun _ _ => .ok .null⟩

def fixtureTable : List (String × PyCallable) := [("f", zeroArity)]

/-!
Claim theorems, preceded by shared helper lemmas.
-/

theorem alistGet_append_of_none {α : Type} {l : List (String × α)} {k : String}
    (h : alistGet l k = none) (l2 : List (String × α)) :
    alistGet (l ++ l2) k = alistGet l2 k := by
  induction l with
  | nil => rfl
  | cons kv rest ih =>
    rw [alistGet] at h
    rw [List.cons_append, alistGet]
    by_cases hk : kv.1 = k
    · rw [if_pos hk] at h; exact absurd h (by simp)
    · rw [if_neg hk] at h
      rw [if_neg hk]
      exact ih h

theorem exceptClause_afterCall (out : Except PyExc PyVal) (b : Bool) (idv : PyVal) :
    exceptClause (afterCall out b idv) = .ok (finishCall out b idv) := by
  cases out with
  | error e => cases e <;> rfl
  | ok v =>
    cases b with
    | true => rfl
    | false =>
      by_cases h : (serializable v && serializable idv) = true
      · simp [afterCall, finishCall, prepare_response, h, exceptClause]
      · simp [afterCall, finishCall, prepare_response, h, exceptClause,
          returnError, prepare_error, serializable]

theorem exceptClause_dispatch (methods : List (String × PyCallable))
    (mname : String) (c : PyCallable) (h4 : alistGet methods mname = some c)
    (P : PyVal) (nb : Bool) (idv : PyVal) :
    exceptClause
      (if !(pyTruthy P) then
        afterCall (callRegistered methods (PyVal.str mname) [] []) nb idv
      else
        match P with
        | .arr xs => afterCall (callRegistered methods (PyVal.str mname) xs []) nb idv
        | .obj ps => afterCall (callRegistered methods (PyVal.str mname) [] ps) nb idv
        | _ =>
          returnError JSONRPCError.InvalidRequest
            "Invalid request: params must be absent, array or object" PyVal.null) =
    .ok (dispatchRule c P nb idv) := by
  have hc : ∀ pos kw, callRegistered methods (PyVal.str mname) pos kw = c.call pos kw := by
    intro pos kw
    simp [callRegistered, h4]
  by_cases ht : pyTruthy P = true
  · cases P with
    | null => simp [pyTruthy] at ht
    | arr xs => simp [dispatchRule, ht, hc, exceptClause_afterCall]
    | obj ps => simp [dispatchRule, ht, hc, exceptClause_afterCall]
    | bool b => simp [dispatchRule, ht, exceptClause, returnError, prepare_error, serializable]
    | num n => simp [dispatchRule, ht, exceptClause, returnError, prepare_error, serializable]
    | str s => simp [dispatchRule, ht, exceptClause, returnError, prepare_error, serializable]
    | pyobject t => simp [dispatchRule, ht, exceptClause, returnError, prepare_error, serializable]
  · simp only [Bool.not_eq_true] at ht
    cases P <;> simp [dispatchRule, ht, hc, exceptClause_afterCall]

theorem process_single_valid_eq
    (methods : List (String × PyCallable)) (kvs : List (String × PyVal))
    (mname : String) (c : PyCallable)
    (h1 : alistGet kvs "jsonrpc" = some (PyVal.str "2.0"))
    (h2 : alistGet kvs "method" = some (PyVal.str mname))
    (h3 : keysAllowed kvs = true)
    (h4 : alistGet methods mname = some c) :
    process_single methods (PyVal.obj kvs) =
      .ok (dispatchRule c ((alistGet kvs "params").getD PyVal.null)
        (!(alistGet kvs "id").isSome) ((alistGet kvs "id").getD PyVal.null)) := by
  have h3b : ((kvs.map Prod.fst).dedup).all (fun k => REQUEST_FIELDS.contains k) = true := h3
  cases hid : alistGet kvs "id" with
  | none =>
    cases hp : alistGet kvs "params" with
    | none =>
      simp only [process_single, pyIn, pySubscript, pyKeys, pyHashContains,
        hid, hp, h1, h2, h3b, h4, Option.isSome_some, Option.isSome_none, Option.getD_none,
        Option.getD_some, Bool.not_true, Bool.not_false, beq_self_eq_true, if_true, if_false,
        Bool.false_eq_true, ite_false, ite_true]
      exact exceptClause_dispatch methods mname c h4 PyVal.null true PyVal.null
    | some pv =>
      simp only [process_single, pyIn, pySubscript, pyKeys, pyHashContains,
        hid, hp, h1, h2, h3b, h4, Option.isSome_some, Option.isSome_none, Option.getD_none,
        Option.getD_some, Bool.not_true, Bool.not_false, beq_self_eq_true, if_true, if_false,
        Bool.false_eq_true, ite_false, ite_true]
      exact exceptClause_dispatch methods mname c h4 pv true PyVal.null
  | some idv =>
    cases hp : alistGet kvs "params" with
    | none =>
      simp only [process_single, pyIn, pySubscript, pyKeys, pyHashContains,
        hid, hp, h1, h2, h3b, h4, Option.isSome_some, Option.isSome_none, Option.getD_none,
        Option.getD_some, Bool.not_true, Bool.not_false, beq_self_eq_true, if_true, if_false,
        Bool.false_eq_true, ite_false, ite_true]
      exact exceptClause_dispatch methods mname c h4 PyVal.null false idv
    | some pv =>
      simp only [process_single, pyIn, pySubscript, pyKeys, pyHashContains,
        hid, hp, h1, h2, h3b, h4, Option.isSome_some, Option.isSome_none, Option.getD_none,
        Option.getD_some, Bool.not_true, Bool.not_false, beq_self_eq_true, if_true, if_false,
        Bool.false_eq_true, ite_false, ite_true]
      exact exceptClause_dispatch methods mname c h4 pv false idv

theorem returnError_null (code : Int) (msg : String) :
    returnError code msg PyVal.null = .ok (some (.error code msg PyVal.null)) := rfl

theorem finishCall_notification_none_iff (out : Except PyExc PyVal) (idv : PyVal) :
    (finishCall out true idv = none) ↔
      ((match out with | Except.ok _ => true | _ => false) = true) := by
  cases out with
  | ok v => simp [finishCall]
  | error e => cases e <;> simp [finishCall]

theorem dispatchRule_notification_none_iff (c : PyCallable) (P : PyVal) (idv : PyVal) :
    (dispatchRule c P true idv = none) ↔
      ((match chosenCall c P with
        | some (Except.ok _) => true
        | _ => false) = true) := by
  by_cases ht : pyTruthy P = true
  · cases P with
    | null => simp [pyTruthy] at ht
    | arr xs =>
      rw [show dispatchRule c (PyVal.arr xs) true idv =
            finishCall (c.call xs []) true idv by simp [dispatchRule, ht]]
      rw [show chosenCall c (PyVal.arr xs) = some (c.call xs []) by simp [chosenCall, ht]]
      rw [finishCall_notification_none_iff]
      cases c.call xs [] <;> simp
    | obj ps =>
      rw [show dispatchRule c (PyVal.obj ps) true idv =
            finishCall (c.call [] ps) true idv by simp [dispatchRule, ht]]
      rw [show chosenCall c (PyVal.obj ps) = some (c.call [] ps) by simp [chosenCall, ht]]
      rw [finishCall_notification_none_iff]
      cases c.call [] ps <;> simp
    | bool b => simp [dispatchRule, chosenCall, ht]
    | num n => simp [dispatchRule, chosenCall, ht]
    | str s => simp [dispatchRule, chosenCall, ht]
    | pyobject t => simp [dispatchRule, chosenCall, ht]
  · simp only [Bool.not_eq_true] at ht
    rw [show dispatchRule c P true idv = finishCall (c.call [] []) true idv by
      cases P <;> simp [dispatchRule, ht]]
    rw [show chosenCall c P = some (c.call [] []) by simp [chosenCall, ht]]
    rw [finishCall_notification_none_iff]
    cases c.call [] [] <;> simp

theorem process_request_obj_none_iff (methods : List (String × PyCallable))
    (kvs : List (String × PyVal)) :
    (process_request methods (.value (.obj kvs)) = none) ↔
      (process_single methods (.obj kvs) = .ok none) := by
  cases hps : process_single methods (.obj kvs) with
  | ok r =>
    cases r with
    | none => simp [process_request, hps]
    | some resp => simp [process_request, hps]
  | error e => simp [process_request, hps]

theorem delKey_append_singleton {α : Type} {l : List (String × α)} {k : String}
    (h : alistGet l k = none) (v : α) :
    delKey (l ++ [(k, v)]) k = l := by
  induction l with
  | nil => simp [delKey]
  | cons kv rest ih =>
    rw [alistGet] at h
    by_cases hk : kv.1 = k
    · rw [if_pos hk] at h; exact absurd h (by simp)
    · rw [if_neg hk] at h
      rw [List.cons_append]
      show delKey ((kv.1, kv.2) :: (rest ++ [(k, v)])) k = (kv.1, kv.2) :: rest
      rw [delKey, if_neg hk, ih h]

/-- C1.  The claim says every response to a well-formed request carrying
an id echoes that id, including InvalidParams and InternalError raised
during the method call.  The code passes no id to `prepare_error` in
those branches: dispatching `f` with a wrong arity under id 5 yields an
InvalidParams response whose id is null, not 5. -/
theorem c1_invalid_params_drops_request_id :
    process_request fixtureTable (ParseOutcome.value (PyVal.obj
      [("jsonrpc", PyVal.str "2.0"), ("method", PyVal.str "f"),
       ("params", PyVal.arr [PyVal.num 1]), ("id", PyVal.num 5)])) =
    some (Output.single (Resp.error JSONRPCError.InvalidParams
      "Invalid params: takes 0 positional arguments" PyVal.null)) := rfl

/-- C2.  The claim says a failure in one batch element never prevents the
remaining elements from being processed.  A first element carrying exactly
one unknown key makes `unknown_fields[0]` subscript a set, raising a
`TypeError` inside the batch list comprehension; the whole batch collapses
to a single InternalError response and the second (valid, id 2) element is
never dispatched. -/
theorem c2_batch_aborted_by_single_element :
    process_request fixtureTable (ParseOutcome.value (PyVal.arr
      [PyVal.obj [("jsonrpc", PyVal.str "2.0"), ("method", PyVal.str "x"),
        ("bogus", PyVal.num 1), ("id", PyVal.num 1)],
       PyVal.obj [("jsonrpc", PyVal.str "2.0"), ("method", PyVal.str "f"),
        ("id", PyVal.num 2)]])) =
    some (Output.single (Resp.error JSONRPCError.InternalError
      "Internal error: set object is not subscriptable" PyVal.null)) := rfl

/-- C3.  The claim says a request with keys outside
`{jsonrpc, method, params, id}` yields InvalidRequest (-32600) naming the
keys, in particular with exactly one unknown key.  With exactly one
unknown key the source evaluates `unknown_fields[0]` on a set, which
raises a `TypeError`; the outer guard turns it into InternalError
(-32603) with a null id instead. -/
theorem c3_single_unknown_key_internal_error :
    process_request fixtureTable (ParseOutcome.value (PyVal.obj
      [("jsonrpc", PyVal.str "2.0"), ("method", PyVal.str "x"),
       ("bogus", PyVal.num 1), ("id", PyVal.num 7)])) =
    some (Output.single (Resp.error JSONRPCError.InternalError
      "Internal error: set object is not subscriptable" PyVal.null)) := rfl

/-- C4.  A request object without an `id` key (a notification) produces
no output from `process_request` exactly when its dispatch succeeds:
every validation failure (including those that raise and are converted by
the outer guard) and every exception from the method call still produces
an error response, while a successful call on a true notification is
silent. -/
theorem c4_idless_request_silent_iff_dispatch_succeeds
    (methods : List (String × PyCallable)) (kvs : List (String × PyVal))
    (hid : (alistGet kvs "id").isSome = false) :
    (process_request methods (ParseOutcome.value (PyVal.obj kvs)) = none) ↔
      dispatchSucceeds methods kvs = true := by
  rw [process_request_obj_none_iff]
  have hidn : alistGet kvs "id" = none := by
    cases h : alistGet kvs "id" with
    | none => rfl
    | some v => rw [h] at hid; simp at hid
  cases hj : alistGet kvs "jsonrpc" with
  | none =>
    simp [process_single, dispatchSucceeds, pyIn, pySubscript, hidn, hj, returnError_null]
  | some jv =>
    cases jv with
    | str s =>
      by_cases hs : s = "2.0"
      · subst hs
        cases hm : alistGet kvs "method" with
        | none =>
          simp [process_single, dispatchSucceeds, pyIn, pySubscript, hidn, hj, hm,
            returnError_null]
        | some mv =>
          by_cases hk : keysAllowed kvs = true
          · have hkb : ((kvs.map Prod.fst).dedup).all
                (fun k => REQUEST_FIELDS.contains k) = true := hk
            cases mv with
            | str mname =>
              cases hcm : alistGet methods mname with
              | none =>
                simp only [process_single, pyIn, pySubscript, pyKeys, pyHashContains,
                  hidn, hj, hm, hcm, hkb]
                simp [dispatchSucceeds, hj, hm, hk, hcm, returnError_null]
              | some c =>
                rw [process_single_valid_eq methods kvs mname c hj hm hk hcm]
                have hdr := dispatchRule_notification_none_iff c
                  ((alistGet kvs "params").getD PyVal.null) PyVal.null
                simp only [hidn, Option.isSome_none, Bool.not_false, Option.getD_none]
                simp [dispatchSucceeds, hj, hm, hk, hcm, hdr]
            | null =>
              simp only [process_single, pyIn, pySubscript, pyKeys, pyHashContains,
                hidn, hj, hm, hkb]
              simp [dispatchSucceeds, hj, hm, returnError_null]
            | bool b =>
              simp only [process_single, pyIn, pySubscript, pyKeys, pyHashContains,
                hidn, hj, hm, hkb]
              simp [dispatchSucceeds, hj, hm, returnError_null]
            | num n =>
              simp only [process_single, pyIn, pySubscript, pyKeys, pyHashContains,
                hidn, hj, hm, hkb]
              simp [dispatchSucceeds, hj, hm, returnError_null]
            | arr xs =>
              simp only [process_single, pyIn, pySubscript, pyKeys, pyHashContains,
                hidn, hj, hm, hkb]
              simp [dispatchSucceeds, hj, hm, returnError_null]
            | obj ps =>
              simp only [process_single, pyIn, pySubscript, pyKeys, pyHashContains,
                hidn, hj, hm, hkb]
              simp [dispatchSucceeds, hj, hm, returnError_null]
            | pyobject t =>
              simp only [process_single, pyIn, pySubscript, pyKeys, pyHashContains,
                hidn, hj, hm, hkb]
              simp [dispatchSucceeds, hj, hm, returnError_null]
          · have hkf : keysAllowed kvs = false := by
              simp only [Bool.not_eq_true] at hk
              exact hk
            have hkb : ((kvs.map Prod.fst).dedup).all
                (fun k => REQUEST_FIELDS.contains k) = false := hkf
            cases mv <;>
              (simp only [process_single, pyIn, pySubscript, pyKeys, pyHashContains,
                dispatchSucceeds, hidn, hj, hm, hkb, hkf, Bool.false_and, Bool.and_false]
               simp [returnError_null]
               split <;> simp [returnError_null])
      · simp [process_single, dispatchSucceeds, pyIn, pySubscript, hidn, hj, hs,
          returnError_null]
    | null =>
      simp [process_single, dispatchSucceeds, pyIn, pySubscript, hidn, hj, returnError_null]
    | bool b =>
      simp [process_single, dispatchSucceeds, pyIn, pySubscript, hidn, hj, returnError_null]
    | num n =>
      simp [process_single, dispatchSucceeds, pyIn, pySubscript, hidn, hj, returnError_null]
    | arr xs =>
      simp [process_single, dispatchSucceeds, pyIn, pySubscript, hidn, hj, returnError_null]
    | obj ps =>
      simp [process_single, dispatchSucceeds, pyIn, pySubscript, hidn, hj, returnError_null]
    | pyobject t =>
      simp [process_single, dispatchSucceeds, pyIn, pySubscript, hidn, hj, returnError_null]

/-- C4 witness: a concrete notification (no id key) on a registered
zero-argument method is silent. -/
theorem c4_idless_request_silent_iff_dispatch_succeeds_witness :
    process_request fixtureTable (ParseOutcome.value (PyVal.obj
      [("jsonrpc", PyVal.str "2.0"), ("method", PyVal.str "f")])) = none :=
  (c4_idless_request_silent_iff_dispatch_succeeds fixtureTable
    [("jsonrpc", PyVal.str "2.0"), ("method", PyVal.str "f")] rfl).mpr rfl

/-- C5.  The claim says a successful registration returns true.  The
source checks the failure cases (returning False) but falls off the end
after inserting, so Python returns None (modelled by `none`): the entry
is inserted, yet the reported value is not `true`. -/
theorem c5_successful_add_returns_none :
    add_method [] (RegArg.callable zeroArity) none = ([("f", zeroArity)], none) ∧
    (none : Option Bool) ≠ some true := ⟨rfl, by simp⟩

/-- C7.  The claim says a top-level JSON value that is neither object nor
array yields InvalidRequest (-32600) with null id.  For the number 5 the
expression `"id" not in request` raises a `TypeError`, and the outer guard
produces InternalError (-32603) instead. -/
theorem c7_top_level_number_internal_error :
    process_request fixtureTable (ParseOutcome.value (PyVal.num 5)) =
    some (Output.single (Resp.error JSONRPCError.InternalError
      "Internal error: argument of type int is not iterable" PyVal.null)) := rfl

/-- C9.  The claim says each connection exclusively owns its buffer, bytes
appended by one handler never being observed in another handler's buffer.
`buffer` is a class-level attribute never rebound per instance, so all
handlers resolve it to the same object: after handler 1 receives the byte
65, handler 2 observes it too.  The second conjunct shows the true part of
the claim: the (shared) buffer is cleared once a complete frame (here
`A\r\n\r\n`) is extracted, the frame being handed over whole. -/
theorem c9_class_level_buffer_shared_across_handlers :
    ConnectionHandler.buffer (handleByte initialHandlerState 1 65).1 2 = [65] ∧
    handleData initialHandlerState 1 [65, 13, 10, 13, 10] =
      ((handleData initialHandlerState 1 [65, 13, 10, 13, 10]).1,
        [[65, 13, 10, 13, 10]]) ∧
    ConnectionHandler.buffer (handleData initialHandlerState 1 [65, 13, 10, 13, 10]).1 1 = [] :=
  ⟨rfl, rfl, rfl⟩

/-- C6 counterexample.  The claim says any `params` value that is not an
array or object (e.g. a number) yields InvalidRequest (-32600).  With
`params` equal to the number 0 the truthiness test `if not params` selects
the zero-argument call instead, and the request succeeds with a result
response; `Resp.code` is `none`, not `some (-32600)`. -/
theorem c6_falsy_number_params_calls_with_zero_args :
    process_request fixtureTable (ParseOutcome.value (PyVal.obj
      [("jsonrpc", PyVal.str "2.0"), ("method", PyVal.str "f"),
       ("params", PyVal.num 0), ("id", PyVal.num 1)])) =
    some (Output.single (Resp.result (PyVal.str "ok") (PyVal.num 1))) ∧
    Resp.code (Resp.result (PyVal.str "ok") (PyVal.num 1)) = none := ⟨rfl, rfl⟩

/-- C6 (amended).  For every valid request naming a registered method,
dispatch follows the truthiness-amended rule `dispatchRule`: a falsy
`params` value (absent, null, false, 0, empty string, empty array, empty
object) gives a zero-argument call, a non-empty array a positional call,
a non-empty object a keyword call, and every other (truthy, non-container)
`params` value an InvalidRequest (-32600) error response. -/
theorem c6_amended_params_shape_dispatch
    (methods : List (String × PyCallable)) (kvs : List (String × PyVal))
    (mname : String) (c : PyCallable)
    (h1 : alistGet kvs "jsonrpc" = some (PyVal.str "2.0"))
    (h2 : alistGet kvs "method" = some (PyVal.str mname))
    (h3 : keysAllowed kvs = true)
    (h4 : alistGet methods mname = some c) :
    process_single methods (PyVal.obj kvs) =
      .ok (dispatchRule c ((alistGet kvs "params").getD PyVal.null)
        (!(alistGet kvs "id").isSome) ((alistGet kvs "id").getD PyVal.null)) :=
  process_single_valid_eq methods kvs mname c h1 h2 h3 h4

/-- C6 witness: with `params` equal to the falsy number 0 the registered
zero-argument method is called with no arguments and succeeds. -/
theorem c6_amended_params_shape_dispatch_witness :
    process_single fixtureTable (PyVal.obj
      [("jsonrpc", PyVal.str "2.0"), ("method", PyVal.str "f"),
       ("params", PyVal.num 0), ("id", PyVal.num 1)]) =
      .ok (some (Resp.result (PyVal.str "ok") (PyVal.num 1))) :=
  (c6_amended_params_shape_dispatch fixtureTable
    [("jsonrpc", PyVal.str "2.0"), ("method", PyVal.str "f"),
     ("params", PyVal.num 0), ("id", PyVal.num 1)]
    "f" zeroArity rfl rfl rfl rfl).trans rfl

/-- C10.  A registered method called through a request carrying an id
whose result cannot be serialized to JSON does not make `process_request`
raise: the serialization `TypeError` is absorbed by the same except clause
that catches argument-mismatch errors, giving an InvalidParams (-32602)
error response, not an InternalError. -/
theorem c10_unserializable_result_invalid_params
    (mname : String) (c : PyCallable) (idv res : PyVal)
    (hcall : c.call [] [] = .ok res)
    (hser : serializable res = false) :
    process_request [(mname, c)] (ParseOutcome.value (PyVal.obj
      [("jsonrpc", PyVal.str "2.0"), ("method", PyVal.str mname), ("id", idv)])) =
    some (.single (.error JSONRPCError.InvalidParams
      "Invalid params: Object is not JSON serializable" PyVal.null)) := by
  have h4 : alistGet [(mname, c)] mname = some c := by simp [alistGet]
  have hsingle := process_single_valid_eq [(mname, c)]
    [("jsonrpc", PyVal.str "2.0"), ("method", PyVal.str mname), ("id", idv)]
    mname c rfl rfl rfl h4
  simp only [alistGet, reduceIte, Option.getD_some, Option.getD_none, Option.isSome_some,
    Bool.not_true] at hsingle
  simp [process_request, hsingle, dispatchRule, finishCall, pyTruthy, hcall, hser]

/-- C10 witness: a concrete method returning a Python set. -/
theorem c10_unserializable_result_invalid_params_witness :
    process_request [("g", returnsSet)] (ParseOutcome.value (PyVal.obj
      [("jsonrpc", PyVal.str "2.0"), ("method", PyVal.str "g"), ("id", PyVal.num 1)])) =
    some (.single (.error JSONRPCError.InvalidParams
      "Invalid params: Object is not JSON serializable" PyVal.null)) :=
  c10_unserializable_result_invalid_params "g" returnsSet (PyVal.num 1) (PyVal.pyobject 0)
    rfl rfl

/-- C8 counterexample.  The claim says passing a previously registered
callable to unregister removes its entry even when it was registered
under an explicit alias different from the callable's own name.  The
source resolves the callable to its `__name__` and looks that up: after
registering `return_` under the alias `return` (as `RPCInterface` itself
does), unregistering by the callable finds no entry named `return_`,
removes nothing and returns false. -/
theorem c8_alias_registration_not_removed_by_callable :
    remove_method (add_method [] (RegArg.callable returnUnderscore) (some "return")).1
      (MethodRef.byObj (RegArg.callable returnUnderscore)) =
    ([("return", returnUnderscore)], false) := rfl

/-- C8 (amended).  Passing a previously registered callable to unregister
resolves it to its `__name__` and removes the entry stored under that
name: a registration of a fresh callable under its own name is undone
(new entry removed, true returned, registry restored), and in general
unregister-by-callable returns whether an entry named `__name__` was
present and removed.  A callable registered only under a differing
explicit alias is therefore not removed (see the counterexample). -/
theorem c8_amended_unregister_by_dunder_name
    (tbl : List (String × PyCallable)) (c : PyCallable)
    (h : alistGet tbl c.name = none) :
    remove_method (add_method tbl (RegArg.callable c) none).1
      (MethodRef.byObj (RegArg.callable c)) = (tbl, true) ∧
    ∀ tbl2 : List (String × PyCallable),
      (remove_method tbl2 (MethodRef.byObj (RegArg.callable c))).2 =
        (alistGet tbl2 c.name).isSome := by
  constructor
  · have hadd : (add_method tbl (RegArg.callable c) none).1 = tbl ++ [(c.name, c)] := by
      rw [add_method]
      simp only [h, Option.isSome_none, Bool.false_eq_true, if_false]
    rw [hadd, remove_method]
    rw [alistGet_append_of_none h [(c.name, c)]]
    rw [delKey_append_singleton h c]
    simp [alistGet]
  · intro tbl2
    rw [remove_method]
    by_cases h2 : (alistGet tbl2 c.name).isSome
    · rw [if_pos h2, h2]
    · rw [if_neg h2]
      simp only [Bool.not_eq_true] at h2
      rw [h2]

/-- C8 witness: a concrete register/unregister round trip through the
amended theorem. -/
theorem c8_amended_unregister_by_dunder_name_witness :
    remove_method (add_method [] (RegArg.callable trivialMethod) none).1
      (MethodRef.byObj (RegArg.callable trivialMethod)) = ([], true) :=
  (c8_amended_unregister_by_dunder_name [] trivialMethod rfl).1
